import Mathlib

/-!
Verification of the Linux Troubleshooting Simulator backend
(`src/backend` of cilasbeltrame/cb-devops-challenges).

The Python modules `issue_generator.py`, `solution_verifier.py`,
`hint_provider.py`, `container_manager.py` and `api.py` are shallowly
embedded below.  External effects (the OpenAI call, the Docker runtime,
the HTTP transport) are passed in as explicit oracle arguments; the pure
control flow of each Python function is translated line by line.
-/

namespace Sim

/-! ## Python built-in behaviour helpers -/

/-- Models Python truthiness of an optional string value obtained from a
dict: `field not in issue or not issue[field]` is false exactly when the
field is present and non-empty. -/
def fieldTruthy : Option String → Bool
  | none => false
  | some s => !s.data.isEmpty

/-- Models Python truthiness of an optional value (`data.get(k)` followed
by `not v`): `none` (Python `None`) and the empty string are falsy. -/
def pyFalsy : Option String → Bool
  | none => true
  | some s => s.data.isEmpty

/-- Splits a character list at every character satisfying `p`, keeping
empty pieces (the pieces between two adjacent separators). -/
def splitChars (p : Char → Bool) : List Char → List (List Char)
  | [] => [[]]
  | c :: cs =>
    if p c then [] :: splitChars p cs
    else
      match splitChars p cs with
      | [] => [[c]]
      | t :: ts => (c :: t) :: ts

/-- Models Python `str.split()` with no separator: split on whitespace,
dropping empty tokens, so runs of whitespace count as one separator. -/
def pySplit (s : String) : List String :=
  ((splitChars Char.isWhitespace s.data).filter (fun l => !l.isEmpty)).map
    (fun l => (⟨l⟩ : String))

/-- Models Python `str.strip()`: drop leading and trailing whitespace. -/
def pyStrip (s : String) : String :=
  ⟨((s.data.dropWhile Char.isWhitespace).reverse.dropWhile Char.isWhitespace).reverse⟩

/-- Line splitting of Python `str.splitlines()` restricted to the
terminators `\n`, `\r` and `\r\n`: a terminator ends the current line
and a trailing terminator does not open a new empty line. -/
def splitlinesChars : List Char → List (List Char)
  | [] => []
  | '\n' :: cs => [] :: splitlinesChars cs
  | '\r' :: '\n' :: cs => [] :: splitlinesChars cs
  | '\r' :: cs => [] :: splitlinesChars cs
  | c :: cs =>
    match splitlinesChars cs with
    | [] => [[c]]
    | t :: ts => (c :: t) :: ts

/-- Models Python `str.splitlines()`. -/
def pySplitlines (s : String) : List String :=
  (splitlinesChars s.data).map (fun l => (⟨l⟩ : String))

/-- Decimal value of a non-empty all-digit character run, `none`
otherwise. -/
def digitsToNat : List Char → Option Nat
  | [] => none
  | ds =>
    if ds.all Char.isDigit then
      some (ds.foldl (fun n c => n * 10 + (c.toNat - '0'.toNat)) 0)
    else none

/-- Models Python `int(s)` on a decimal string literal: strip
surrounding whitespace, accept an optional sign followed by a non-empty
run of decimal digits, and raise `ValueError` (here: `none`) on
anything else. -/
def pyInt (s : String) : Option Int :=
  match (pyStrip s).data with
  | [] => none
  | '-' :: ds => (digitsToNat ds).map (fun n => -(n : Int))
  | '+' :: ds => (digitsToNat ds).map (fun n => (n : Int))
  | ds => (digitsToNat ds).map (fun n => (n : Int))

/-- Models Python `str.lower()` (ASCII case folding). -/
def pyLower (s : String) : String :=
  ⟨s.data.map Char.toLower⟩

/-! ## Data model

The generator returns a JSON object (a Python dict).  Before validation
any field may be missing; the `hints` field may fail the `isinstance`
list check (e.g. the model returned a single string).  `PyIssue` is that
raw record. -/

/-- Value stored under the `hints` key of a generated record: either a
JSON list of strings or a plain string (which fails `isinstance(_, list)`). -/
inductive PyHints where
  | strList (l : List String)
  | str (s : String)
deriving DecidableEq

/-- Truthiness of the `hints` value: an empty list and an empty string
are falsy, everything else is truthy. -/
def hintsTruthy : Option PyHints → Bool
  | none => false
  | some (.strList l) => !l.isEmpty
  | some (.str s) => !(s == "")

/-- Raw generated record, before validation.  Every field of the JSON
schema requested from the generator may be absent. -/
structure PyIssue where
  id : Option String
  title : Option String
  description : Option String
  category : Option String
  difficulty : Option String
  setup_script : Option String
  verification_script : Option String
  hints : Option PyHints
  solution : Option String
  base_image : Option String
deriving DecidableEq

/-! ## issue_generator.validate_issue -/

/-- The `for field in required_fields` loop of `validate_issue`
(`issue_generator.py:58-61`): the six required fields, in source order,
each checked for presence and truthiness. -/
def requiredFieldsOk (issue : PyIssue) : Bool :=
  [fieldTruthy issue.title,
   fieldTruthy issue.description,
   fieldTruthy issue.setup_script,
   fieldTruthy issue.verification_script,
   hintsTruthy issue.hints,
   fieldTruthy issue.solution].all id

/-- Embedding of `validate_issue` (`issue_generator.py:47-86`).  The
final block about background processes only prints warnings and never
changes the result, so it is omitted. -/
def validate_issue (issue : PyIssue) : Bool :=
  if !(requiredFieldsOk issue) then false
  else if (issue.description.getD "").length < 50 then false
  else if (issue.setup_script.getD "").length < 20
          || (issue.verification_script.getD "").length < 20 then false
  else
    match issue.hints with
    | some (.strList l) => decide (¬ l.length < 2)
    | _ => false

/-- Embedding of the validation tail of `generate_issue`
(`issue_generator.py:246-251`): the record coming back from the
generator is returned unchanged when `validate_issue` accepts it, and a
`ValueError` is raised otherwise. -/
def generate_issue_post (issue : PyIssue) : Except String PyIssue :=
  if validate_issue issue then .ok issue else .error "Generated issue is invalid"

/-- Modelled from the spec (§8 "Structural validity"): acceptance
requires all nine schema fields present and non-empty — including `id`,
`category`, `difficulty` and `base_image` — on top of the length
constraints.  Written from the spec's words to be compared with
`validate_issue`, which is translated from the source. -/
def spec_accepts_nine (issue : PyIssue) : Bool :=
  fieldTruthy issue.id && fieldTruthy issue.title && fieldTruthy issue.description
    && fieldTruthy issue.category && fieldTruthy issue.difficulty
    && fieldTruthy issue.setup_script && fieldTruthy issue.verification_script
    && hintsTruthy issue.hints && fieldTruthy issue.solution
    && fieldTruthy issue.base_image
    && decide (50 ≤ (issue.description.getD "").length)
    && decide (20 ≤ (issue.setup_script.getD "").length)
    && decide (20 ≤ (issue.verification_script.getD "").length)
    && (match issue.hints with
        | some (.strList l) => decide (2 ≤ l.length)
        | _ => false)

/-- The conditions `validate_issue` actually enforces, spelled out as a
proposition: the six required fields are present and truthy, the three
length bounds hold, and `hints` is a list of length at least two. -/
def acceptedConds (issue : PyIssue) : Prop :=
  fieldTruthy issue.title = true ∧
  fieldTruthy issue.description = true ∧
  fieldTruthy issue.setup_script = true ∧
  fieldTruthy issue.verification_script = true ∧
  fieldTruthy issue.solution = true ∧
  50 ≤ (issue.description.getD "").length ∧
  20 ≤ (issue.setup_script.getD "").length ∧
  20 ≤ (issue.verification_script.getD "").length ∧
  ∃ l, issue.hints = some (.strList l) ∧ 2 ≤ l.length

/-! ## Validated issue record

After acceptance an issue behaves as a total record: the components
below (`solution_verifier.py`, `hint_provider.py`, `container_manager.py`,
`api.py`) read its fields with plain indexing or `.get` with a default,
so a missing field is the same as its default. -/

/-- Issue record as consumed after validation. -/
structure Issue where
  id : String
  title : String
  description : String
  category : String
  difficulty : String
  setup_script : String
  verification_script : String
  hints : List String
  solution : String
  base_image : String
deriving DecidableEq

/-! ## solution_verifier.py -/

/-- Literal text of the success template before `issue['title']`. -/
def successFbPre : String :=
  "\nGreat job! You\x27ve successfully resolved the issue: "

/-- Literal text of the success template between `title` and `solution`. -/
def successFbMid1 : String := "\n\nThe solution was:\n"

/-- Literal text of the success template between `solution` and `category`. -/
def successFbMid2 : String := "\n\nThis is a common issue in "

/-- Literal text of the success template after `issue['category']`. -/
def successFbPost : String :=
  " scenarios. Understanding how to troubleshoot and fix this type of problem is valuable for system administration and DevOps roles.\n"

/-- Embedding of `generate_success_feedback` (`solution_verifier.py:64-81`):
the f-string template embedding the issue title, solution and category. -/
def generate_success_feedback (issue : Issue) : String :=
  successFbPre ++ issue.title ++ successFbMid1 ++ issue.solution
    ++ successFbMid2 ++ issue.category ++ successFbPost

/-- Literal text of the failure template before the verification output. -/
def failureFbPre : String :=
  "\nThe issue hasn\x27t been completely resolved yet. Keep trying!\n\nVerification output:\n"

/-- Literal text of the failure template after the verification output. -/
def failureFbPost : String :=
  "\n\nRemember, you can ask for a hint if you\x27re stuck.\n"

/-- Embedding of `generate_failure_feedback` (`solution_verifier.py:83-101`):
the f-string template embedding the diagnostic output verbatim. -/
def generate_failure_feedback (issue : Issue) (result : String) : String :=
  failureFbPre ++ result ++ failureFbPost

/-- The diagnostic text rebuilt at `solution_verifier.py:51`: all lines
before the exit-code line, joined with newlines; empty when there is at
most one line. -/
def diagnosticText (lines : List String) : String :=
  if 1 < lines.length then String.intercalate "\n" lines.dropLast else ""

/-- Result of `verify_solution`: either a `(resolved, feedback)` pair, or
an unhandled `ValueError` escaping from `int(lines[-1])`. -/
inductive VerifyOutcome where
  | ok (resolved : Bool) (feedback : String)
  | valueError
deriving DecidableEq

/-- Embedding of the parsing half of `verify_solution`
(`solution_verifier.py:40-57`), given the captured stdout of the
`bash verification_script.sh; echo $?` wrapper (the copy/exec transport
steps before it run with `check=True` and are assumed to have
succeeded): strip the output, split it into lines, parse the last line
as the exit code (defaulting to 1 when there are no lines), rebuild the
preceding lines as the diagnostic text, and branch on exit code zero. -/
def verify_solution (issue : Issue) (stdout : String) : VerifyOutcome :=
  let output := pyStrip stdout
  let lines := pySplitlines output
  match lines.getLast? with
  | none => .ok false (generate_failure_feedback issue "")
  | some last =>
    match pyInt last with
    | none => .valueError
    | some ec =>
      let result := diagnosticText lines
      if ec = 0 then .ok true (generate_success_feedback issue)
      else .ok false (generate_failure_feedback issue result)

/-! ## hint_provider.py

The module-level dict `hint_indices` is the only mutable state; it is
modelled as a function from issue id to an optional cursor.  The two
`random` draws (`random.random()` and `random.choice`) are injected: a
rational `r` in `[0,1)` and a choice index (a uniform pick from a list
`l` is `l[idx % len(l)]`). -/

/-- Models `random.choice(l)` given an injected index. -/
def pyChoice (l : List String) (idx : Nat) : String :=
  l.getD (idx % l.length) ""

/-- The `generic_hints` dict of `generate_generic_hint`
(`hint_provider.py:62-105`), as a lookup by category. -/
def genericHints (category : String) : Option (List String) :=
  if category = "networking" then some
    ["Check network connectivity with ping or traceroute.",
     "Verify DNS resolution with nslookup or dig.",
     "Check firewall settings with iptables -L.",
     "Examine network interfaces with ip addr or ifconfig."]
  else if category = "file_system" then some
    ["Check disk space with df -h.",
     "Verify file permissions with ls -la.",
     "Look for disk errors with dmesg | grep -i error.",
     "Check mount points with mount or cat /etc/fstab."]
  else if category = "process_management" then some
    ["Check running processes with ps aux.",
     "Look for high CPU usage with top.",
     "Check for zombie processes with ps aux | grep Z.",
     "Examine process details with pstree or htop."]
  else if category = "permissions" then some
    ["Check file ownership with ls -la.",
     "Verify user and group IDs with id.",
     "Look at access control lists with getfacl.",
     "Check sudo permissions with sudo -l."]
  else if category = "service_configuration" then some
    ["Check service status with systemctl status service_name.",
     "Look at service logs with journalctl -u service_name.",
     "Verify configuration files in /etc.",
     "Check for syntax errors in config files."]
  else if category = "resource_usage" then some
    ["Check memory usage with free -m.",
     "Look at disk I/O with iostat.",
     "Monitor system load with uptime.",
     "Check for memory leaks with valgrind."]
  else if category = "package_management" then some
    ["Verify package installation with dpkg -l or rpm -qa.",
     "Check for broken packages with apt --fix-broken install.",
     "Look at package repositories in /etc/apt/sources.list or /etc/yum.repos.d/.",
     "Verify package dependencies with apt-cache depends or yum deplist."]
  else none

/-- Embedding of `generate_generic_hint` (`hint_provider.py:50-110`). -/
def generate_generic_hint (issue : Issue) (choiceIdx : Nat) : String :=
  match genericHints issue.category with
  | some hs => pyChoice hs choiceIdx
  | none => "Try checking system logs in /var/log for error messages."

/-- Embedding of `generate_specific_hint` (`hint_provider.py:112-136`):
tokenize the solution on whitespace, keep words longer than four
characters, and reference a uniformly chosen one; fixed fallback
sentences when the solution is empty or no word qualifies. -/
def generate_specific_hint (issue : Issue) (choiceIdx : Nat) : String :=
  let solution := issue.solution
  if solution.data.isEmpty then
    "Look carefully at the error messages and try to understand what they\x27re telling you."
  else
    let keywords := (pySplit solution).filter (fun w => 4 < w.length)
    if keywords.isEmpty then
      "The solution involves a common Linux troubleshooting command."
    else
      "The solution involves using or checking something related to \x27"
        ++ pyChoice keywords choiceIdx ++ "\x27."

/-- Embedding of `get_hint` (`hint_provider.py:11-48`).  Returns the
labeled hint together with the updated `hint_indices` table.  The
intermediate table `st1` is the state after the lazy
`if issue_id not in hint_indices: hint_indices[issue_id] = 0` step. -/
def get_hint (st : String → Option Nat) (issue : Issue) (r : ℚ) (choiceIdx : Nat) :
    String × (String → Option Nat) :=
  let hints := issue.hints
  if hints.isEmpty then
    ("Hint 1: " ++ generate_generic_hint issue choiceIdx, st)
  else
    let st1 : String → Option Nat :=
      fun k => if k = issue.id then some ((st issue.id).getD 0) else st k
    let currentIndex := (st issue.id).getD 0
    if currentIndex < hints.length then
      ("Hint " ++ toString (currentIndex + 1) ++ ": " ++ hints.getD currentIndex "",
       fun k => if k = issue.id then some (currentIndex + 1) else st1 k)
    else
      if r < 7/10 then
        ("Hint 1: " ++ hints.getD 0 "",
         fun k => if k = issue.id then some 0 else st1 k)
      else
        ("Hint " ++ toString (hints.length + 1) ++ ": " ++ generate_specific_hint issue choiceIdx,
         st1)

/-! ## container_manager.py

The Docker runtime is injected as an oracle mapping an argv vector to
the result of `subprocess.run`: normal completion with captured stdout,
or a `CalledProcessError` for a non-zero exit under `check=True`. -/

/-- Result of a `subprocess.run` invocation. -/
inductive SubprocResult where
  | ok (stdout : String)
  | fail (msg : String)
deriving DecidableEq

/-- Outcome of `create_container`: a container id, or process
termination through `sys.exit`. -/
inductive CreateOutcome where
  | ok (containerId : String)
  | processExit (code : Nat)
deriving DecidableEq

/-- Image tag computed at `container_manager.py:80`: deterministic in
the case-normalized issue id. -/
def image_tag (issue : Issue) : String :=
  "linux-troubleshooting-" ++ pyLower issue.id

/-- Container name computed at `container_manager.py:86`. -/
def container_name (issue : Issue) : String :=
  "linux-issue-" ++ pyLower issue.id

/-- Embedding of `create_container` (`container_manager.py:24-98`).
Steps: stage the setup script and Dockerfile in `temp_dir` (file writes
assumed to succeed), `docker build` the image, `docker run` the
container, return the trimmed container id.  A `CalledProcessError`
from either docker step is caught by the single `except` clause, which
calls `sys.exit(1)` — modelled as `.processExit 1`. -/
def create_container (issue : Issue) (temp_dir : String)
    (runner : List String → SubprocResult) : CreateOutcome :=
  match runner ["docker", "build", "-t", image_tag issue, temp_dir] with
  | .fail _ => .processExit 1
  | .ok _ =>
    match runner (["docker", "run", "-d", "--name", container_name issue, "-t", image_tag issue]) with
    | .fail _ => .processExit 1
    | .ok out => .ok (pyStrip out)

/-- Abstract Docker daemon state for teardown: which container ids
exist and which of them are running. -/
structure DockerState where
  present : String → Bool
  running : String → Bool

/-- Effect of `docker stop ID` run with `check=False`: stops the
container when it exists; on an unknown id the command fails with a
non-zero exit which is ignored, leaving the state unchanged. -/
def dockerStop (st : DockerState) (cid : String) : DockerState :=
  if st.present cid then
    { st with running := fun k => if k = cid then false else st.running k }
  else st

/-- Effect of `docker rm ID` run with `check=False`: removes the
container when it exists and is stopped; otherwise the command fails
with a non-zero exit which is ignored, leaving the state unchanged. -/
def dockerRm (st : DockerState) (cid : String) : DockerState :=
  if st.present cid && !(st.running cid) then
    { st with present := fun k => if k = cid then false else st.present k }
  else st

/-- Embedding of `remove_container` (`container_manager.py:100-115`):
`docker stop` then `docker rm`, both with `check=False`, so neither
step can raise; the function always returns (a state), never an error. -/
def remove_container (st : DockerState) (cid : String) : DockerState :=
  dockerRm (dockerStop st cid) cid

/-- Embedding of `execute_command` (`container_manager.py:117-136`):
split the command line on whitespace, `docker exec` the tokens, return
captured stdout; a `CalledProcessError` (non-zero exit) is caught and
folded into the returned text as an `Error:` string. -/
def execute_command (runner : List String → SubprocResult)
    (container_id : String) (command : String) : String :=
  match runner (["docker", "exec", container_id] ++ pySplit command) with
  | .ok out => out
  | .fail e => "Error: " ++ e

/-! ## api.py

Each Flask handler is a function of the shared `active_sessions` dict
(modelled as an association list), the request fields (each an optional
string, `None` when absent from the JSON body), and an oracle for the
external call it delegates to.  A handler returns one JSON payload plus
an HTTP status; the payload fields that the handler does not set are
`none`. -/

/-- One entry of `active_sessions`: the issue and its container id. -/
structure SessionRec where
  issue : Issue
  container_id : String
deriving DecidableEq

/-- JSON payload and status code returned by a handler. -/
structure ApiResponse where
  success : Bool
  status : Nat
  error : Option String := none
  output : Option String := none
  message : Option String := none
  hint : Option String := none
deriving DecidableEq

/-- Embedding of the `/api/execute-command` handler (`api.py:61-87`).
The global `active_sessions` dict is in scope but never consulted by
this handler: the request carries a raw `containerId`, validated only
for presence.  Failure of the docker binary itself is out of scope
(`execute_command` returns text for both exit statuses). -/
def api_execute_command (sessions : List (String × SessionRec))
    (runner : List String → SubprocResult)
    (containerId : Option String) (command : Option String) : ApiResponse :=
  if pyFalsy containerId || pyFalsy command then
    { success := false, status := 400,
      error := some "Container ID and command are required" }
  else
    { success := true, status := 200,
      output := some (execute_command runner (containerId.getD "") (command.getD "")) }

/-- Embedding of the `/api/verify-solution` handler (`api.py:89-117`).
The verifier oracle stands for the call to
`solution_verifier.verify_solution`: `.ok` is a normal
`(resolved, feedback)` return, `.error e` an exception caught by the
handler's `except` clause (transport failure or the unguarded int
parse), answered with status 500. -/
def api_verify_solution (sessions : List (String × SessionRec))
    (sessionId : Option String)
    (verifier : String → Issue → Except String (Bool × String)) : ApiResponse :=
  match sessionId with
  | none =>
    { success := false, status := 400, error := some "Invalid session ID" }
  | some sid =>
    if sid = "" then
      { success := false, status := 400, error := some "Invalid session ID" }
    else
      match sessions.lookup sid with
      | none =>
        { success := false, status := 400, error := some "Invalid session ID" }
      | some sess =>
        match verifier sess.container_id sess.issue with
        | .ok (resolved, feedback) =>
          { success := resolved, status := 200, message := some feedback }
        | .error e =>
          { success := false, status := 500, error := some e,
            message := some ("Error: " ++ e) }

/-! ## Sample records used as concrete inputs -/

/-- A structurally valid generated record, all ten schema fields
populated. -/
def sampleRawIssue : PyIssue :=
  { id := some "NET-001",
    title := some "Web service not reachable",
    description := some "The nginx service on this host stopped answering HTTP requests after the most recent deploy and curl now times out.",
    category := some "networking",
    difficulty := some "medium",
    setup_script := some "#!/bin/bash\nservice nginx stop\n",
    verification_script := some "#!/bin/bash\ncurl -sf localhost\n",
    hints := some (.strList ["check logs", "check permissions"]),
    solution := some "Restart nginx with the service command",
    base_image := some "ubuntu:20.04" }

/-- The same record with an empty `category`: one of the nine schema
fields is empty while the six checked fields are all fine. -/
def rawIssueNoCategory : PyIssue :=
  { sampleRawIssue with category := some "" }

/-- The same record with a single hint, failing the `len(hints) >= 2`
check. -/
def rawIssueShortHints : PyIssue :=
  { sampleRawIssue with hints := some (.strList ["check logs"]) }

/-- The validated form of `sampleRawIssue`. -/
def sampleIssue : Issue :=
  { id := "NET-001",
    title := "Web service not reachable",
    description := "The nginx service on this host stopped answering HTTP requests after the most recent deploy and curl now times out.",
    category := "networking",
    difficulty := "medium",
    setup_script := "#!/bin/bash\nservice nginx stop\n",
    verification_script := "#!/bin/bash\ncurl -sf localhost\n",
    hints := ["check logs", "check permissions"],
    solution := "Restart nginx with the service command",
    base_image := "ubuntu:20.04" }

/-- Substring containment: `sub` occurs contiguously inside `s`. -/
def strContains (s sub : String) : Prop :=
  ∃ a b, s = a ++ (sub ++ b)

/-- A docker oracle whose `docker build` step fails with a
`CalledProcessError`. -/
def failingRunner : List String → SubprocResult :=
  fun _ => .fail "Command returned non-zero exit status 1."

/-- A docker oracle where every exec succeeds. -/
def okRunner : List String → SubprocResult :=
  fun _ => .ok "total 0\n"

/-- A docker oracle failing exactly on one exec vector. -/
def sampleExecRunner : List String → SubprocResult :=
  fun args =>
    if args = ["docker", "exec", "cid123", "cat", "/missing"] then
      .fail "Command returned non-zero exit status 1."
    else .ok "ok\n"

/-- An empty session store. -/
def emptySessions : List (String × SessionRec) := []

/-- A Docker daemon state with two containers, one of them running. -/
def sampleDocker : DockerState :=
  { present := fun k => k = "c1" || k = "c2",
    running := fun k => k = "c1" }

/-- A session store holding one session. -/
def sampleSessions : List (String × SessionRec) :=
  [("sess-1", { issue := sampleIssue, container_id := "cid123" })]

/-- A verifier oracle reporting the issue unresolved. -/
def unresolvedVerifier : String → Issue → Except String (Bool × String) :=
  fun _ _ => .ok (false, "not yet")

/-- A verifier oracle raising an exception (e.g. the unguarded int
parse or a failing docker cp). -/
def raisingVerifier : String → Issue → Except String (Bool × String) :=
  fun _ _ => .error "invalid literal for int() with base 10"

/-- A hint-cursor table with no entries, the module state at import. -/
def emptyCursor : String → Option Nat := fun _ => none

/-! ## C1: structural validation boundary -/

/-- Helper: the `required_fields` loop succeeds exactly when the six
checked fields are present and truthy. -/
theorem requiredFieldsOk_iff (issue : PyIssue) :
    requiredFieldsOk issue = true ↔
      fieldTruthy issue.title = true ∧ fieldTruthy issue.description = true ∧
      fieldTruthy issue.setup_script = true ∧ fieldTruthy issue.verification_script = true ∧
      hintsTruthy issue.hints = true ∧ fieldTruthy issue.solution = true := by
  simp [requiredFieldsOk]

/-- Helper: `validate_issue` accepts exactly the records satisfying
`acceptedConds`. -/
theorem validate_issue_eq_true_iff (issue : PyIssue) :
    validate_issue issue = true ↔ acceptedConds issue := by
  cases hh : issue.hints with
  | none =>
    simp [validate_issue, requiredFieldsOk, hintsTruthy, hh, acceptedConds, ite_eq_iff]
  | some hv =>
    cases hv with
    | str s =>
      simp [validate_issue, requiredFieldsOk, hintsTruthy, hh, acceptedConds, ite_eq_iff]
    | strList l =>
      rw [validate_issue, acceptedConds]
      simp only [hh, ite_eq_iff, requiredFieldsOk_iff, hintsTruthy]
      constructor
      · intro h
        rcases h with ⟨_, hfalse⟩ | ⟨h1, h⟩
        · exact absurd hfalse (by simp)
        rcases h with ⟨_, hfalse⟩ | ⟨h2, h⟩
        · exact absurd hfalse (by simp)
        rcases h with ⟨_, hfalse⟩ | ⟨h3, h4⟩
        · exact absurd hfalse (by simp)
        have hr : requiredFieldsOk issue = true := by simpa using h1
        rw [requiredFieldsOk_iff] at hr
        obtain ⟨ht, hd, hs, hv, hhints, hsol⟩ := hr
        simp only [Bool.or_eq_true, decide_eq_true_eq, not_or, not_lt] at h3
        simp only [decide_eq_true_eq, not_lt] at h4
        exact ⟨ht, hd, hs, hv, hsol, not_lt.mp h2, h3.1, h3.2, l, rfl, h4⟩
      · rintro ⟨ht, hd, hs, hv, hsol, hd50, hs20, hv20, l1, hl1, h2l⟩
        have hle : l1 = l := by
          injection hl1 with h'
          injection h' with h''
          exact h''.symm
        subst hle
        have hne : (!l1.isEmpty) = true := by
          cases l1 with
          | nil => simp at h2l
          | cons a as => rfl
        have hr : requiredFieldsOk issue = true := by
          rw [requiredFieldsOk_iff]
          refine ⟨ht, hd, hs, hv, ?_, hsol⟩
          rw [hh]
          exact hne
        right
        refine ⟨by simp [hr], ?_⟩
        right
        refine ⟨not_lt.mpr hd50, ?_⟩
        right
        constructor
        · simp only [Bool.or_eq_true, decide_eq_true_eq, not_or, not_lt]
          exact ⟨hs20, hv20⟩
        · simp only [decide_eq_true_eq, not_lt]
          exact h2l

/-- A sample conforming issue missing only `category` content is
accepted by `validate_issue` but violates the nine-field condition the
spec states. -/
theorem C1_nine_field_counterexample :
    validate_issue rawIssueNoCategory = true ∧
    spec_accepts_nine rawIssueNoCategory = false := by
  exact ⟨by decide, by decide⟩

/-- C1 (amended): for every record submitted to validation, acceptance
holds iff the six checked fields (title, description, setup_script,
verification_script, hints, solution) are present and non-empty,
`len(description) >= 50`, both script lengths are at least 20, and
`hints` is a list of length at least 2; the fields `id`, `category`,
`difficulty` and `base_image` are not checked.  A record failing any of
these is rejected by `generate_issue` with a raised `ValueError` and is
never repaired: an accepted record is returned unchanged. -/
theorem C1_validation_boundary (issue : PyIssue) :
    (generate_issue_post issue = Except.ok issue ↔ acceptedConds issue) ∧
    (¬ acceptedConds issue →
      generate_issue_post issue = Except.error "Generated issue is invalid") := by
  have h := validate_issue_eq_true_iff issue
  by_cases hv : validate_issue issue = true
  · constructor
    · simp [generate_issue_post, hv, h.mp hv]
    · intro hc
      exact absurd (h.mp hv) hc
  · have hv' : validate_issue issue = false := by
      simpa using hv
    constructor
    · simp only [generate_issue_post, hv', Bool.false_eq_true, if_false]
      constructor
      · intro he
        cases he
      · intro hc
        exact absurd (h.mpr hc) hv
    · intro _
      simp [generate_issue_post, hv']

/-- C1 witness: a fully populated record is accepted and returned
unchanged, and dropping one hint makes it rejected with the raised
error. -/
theorem C1_validation_boundary_witness :
    acceptedConds sampleRawIssue ∧
    generate_issue_post sampleRawIssue = Except.ok sampleRawIssue ∧
    generate_issue_post rawIssueShortHints = Except.error "Generated issue is invalid" :=
  have hc : acceptedConds sampleRawIssue :=
    ⟨by decide, by decide, by decide, by decide, by decide, by decide, by decide, by decide,
     ⟨["check logs", "check permissions"], rfl, by decide⟩⟩
  have hbad : ¬ acceptedConds rawIssueShortHints := by
    rintro ⟨-, -, -, -, -, -, -, -, l, hl, h2⟩
    have hl' : PyHints.strList ["check logs"] = PyHints.strList l := by
      injection hl
    have : l = ["check logs"] := by
      injection hl' with h'
      exact h'.symm
    subst this
    simp at h2
  ⟨hc, (C1_validation_boundary sampleRawIssue).1.mpr hc,
   (C1_validation_boundary rawIssueShortHints).2 hbad⟩

/-! ## C2: verification output parsing -/

/-- C2: for every captured verification output, `verify_solution`
splits the stripped text into lines, takes the last line as the exit
code (no lines at all defaulting to code 1, hence failure), and joins
the preceding lines as diagnostic text; the result is `resolved = true`
with feedback containing the issue title, solution and category exactly
when the parsed exit code is 0, and otherwise `resolved = false` with
feedback containing the diagnostic text verbatim.  In particular, for
captured lines `line1, line2, 0` it resolves with feedback containing
title and solution, and for `boom, 3` it does not resolve and the
feedback contains `boom`. -/
theorem C2_verify_parse :
    (∀ (issue : Issue) (stdout : String),
      (pySplitlines (pyStrip stdout) = [] →
        verify_solution issue stdout = .ok false (generate_failure_feedback issue "")) ∧
      (∀ last ec, (pySplitlines (pyStrip stdout)).getLast? = some last →
        pyInt last = some ec →
        ((ec = 0 →
            verify_solution issue stdout = .ok true (generate_success_feedback issue) ∧
            strContains (generate_success_feedback issue) issue.title ∧
            strContains (generate_success_feedback issue) issue.solution ∧
            strContains (generate_success_feedback issue) issue.category) ∧
         (ec ≠ 0 →
            verify_solution issue stdout =
              .ok false (generate_failure_feedback issue
                (diagnosticText (pySplitlines (pyStrip stdout)))) ∧
            strContains
              (generate_failure_feedback issue (diagnosticText (pySplitlines (pyStrip stdout))))
              (diagnosticText (pySplitlines (pyStrip stdout))))))) ∧
    (pySplitlines (pyStrip "line1\nline2\n0\n") = ["line1", "line2", "0"] ∧
     verify_solution sampleIssue "line1\nline2\n0\n" =
       .ok true (generate_success_feedback sampleIssue) ∧
     strContains (generate_success_feedback sampleIssue) sampleIssue.title ∧
     strContains (generate_success_feedback sampleIssue) sampleIssue.solution) ∧
    (pySplitlines (pyStrip "boom\n3\n") = ["boom", "3"] ∧
     verify_solution sampleIssue "boom\n3\n" =
       .ok false (generate_failure_feedback sampleIssue "boom") ∧
     strContains (generate_failure_feedback sampleIssue "boom") "boom") := by
  have hsucc : ∀ issue : Issue,
      strContains (generate_success_feedback issue) issue.title ∧
      strContains (generate_success_feedback issue) issue.solution ∧
      strContains (generate_success_feedback issue) issue.category := by
    intro issue
    refine ⟨⟨successFbPre,
        successFbMid1 ++ issue.solution ++ successFbMid2 ++ issue.category ++ successFbPost, ?_⟩,
      ⟨successFbPre ++ issue.title ++ successFbMid1,
        successFbMid2 ++ issue.category ++ successFbPost, ?_⟩,
      ⟨successFbPre ++ issue.title ++ successFbMid1 ++ issue.solution ++ successFbMid2,
        successFbPost, ?_⟩⟩ <;>
      simp only [generate_success_feedback, String.append_assoc]
  have hfail : ∀ (issue : Issue) (result : String),
      strContains (generate_failure_feedback issue result) result := by
    intro issue result
    exact ⟨failureFbPre, failureFbPost, by
      simp only [generate_failure_feedback, String.append_assoc]⟩
  refine ⟨?_, ?_, ?_⟩
  · intro issue stdout
    constructor
    · intro h
      unfold verify_solution
      dsimp only
      rw [h]
      rfl
    · intro last ec hlast hparse
      constructor
      · intro hec
        subst hec
        refine ⟨?_, hsucc issue⟩
        unfold verify_solution
        dsimp only
        rw [hlast]
        dsimp only
        rw [hparse]
        rfl
      · intro hec
        refine ⟨?_, hfail issue _⟩
        unfold verify_solution
        dsimp only
        rw [hlast]
        dsimp only
        rw [hparse]
        simp [hec]
  · refine ⟨by decide, ?_, (hsucc sampleIssue).1, (hsucc sampleIssue).2.1⟩
    unfold verify_solution
    dsimp only
    rw [show (pySplitlines (pyStrip "line1\nline2\n0\n")).getLast? = some "0" from by decide]
    dsimp only
    rw [show pyInt "0" = some 0 from by decide]
    rfl
  · refine ⟨by decide, ?_, hfail sampleIssue "boom"⟩
    unfold verify_solution
    dsimp only
    rw [show (pySplitlines (pyStrip "boom\n3\n")).getLast? = some "3" from by decide]
    dsimp only
    rw [show pyInt "3" = some 3 from by decide]
    dsimp only
    rw [show diagnosticText (pySplitlines (pyStrip "boom\n3\n")) = "boom" from by decide]
    simp

/-- C2 witness: the general clause applied to the sample issue with a
single `0` output line. -/
theorem C2_verify_parse_witness :
    (pySplitlines (pyStrip "0\n")).getLast? = some "0" ∧ pyInt "0" = some 0 ∧
    verify_solution sampleIssue "0\n" = .ok true (generate_success_feedback sampleIssue) :=
  ⟨by decide, by decide,
   (((C2_verify_parse.1 sampleIssue "0\n").2 "0" 0 (by decide) (by decide)).1 rfl).1⟩

/-! ## C3 and C7: the hint sequencer -/

/-- Helper: a non-nil list is not `isEmpty`. -/
theorem ne_nil_isEmpty_false {α : Type} {l : List α} (h : l ≠ []) : l.isEmpty = false := by
  cases l with
  | nil => exact absurd rfl h
  | cons a as => rfl

/-- Helper: a non-empty string has non-nil character data. -/
theorem ne_empty_data_ne_nil {s : String} (h : s ≠ "") : s.data ≠ [] :=
  fun hd => h (String.ext (hd.trans rfl))

/-- C3: the branch table of `get_hint`.  With no authored hints the
category-keyed generic hint is returned labeled Hint 1 and the cursor
table is untouched; with the cursor inside the list the cursor-th hint
is returned labeled cursor+1 and the cursor advances; with the hints
exhausted, a draw below 0.7 resets the cursor to 0 and returns the
first hint labeled Hint 1, and otherwise a synthesized hint referencing
a uniformly chosen whitespace token of the solution longer than four
characters (or a fixed fallback sentence when none qualifies) is
returned labeled len(hints)+1 without advancing the cursor. -/
theorem C3_get_hint_branch_table (st : String → Option Nat) (issue : Issue) (r : ℚ)
    (idx : Nat) :
    (issue.hints = [] →
      get_hint st issue r idx = ("Hint 1: " ++ generate_generic_hint issue idx, st)) ∧
    (∀ c, issue.hints ≠ [] → (st issue.id).getD 0 = c → c < issue.hints.length →
      get_hint st issue r idx =
        ("Hint " ++ toString (c + 1) ++ ": " ++ issue.hints.getD c "",
         fun k => if k = issue.id then some (c + 1) else st k)) ∧
    (issue.hints ≠ [] → issue.hints.length ≤ (st issue.id).getD 0 →
      (r < 7/10 →
        get_hint st issue r idx =
          ("Hint 1: " ++ issue.hints.getD 0 "",
           fun k => if k = issue.id then some 0 else st k)) ∧
      (¬ r < 7/10 →
        get_hint st issue r idx =
          ("Hint " ++ toString (issue.hints.length + 1) ++ ": "
             ++ generate_specific_hint issue idx, st))) ∧
    ((issue.solution = "" →
       generate_specific_hint issue idx =
         "Look carefully at the error messages and try to understand what they\x27re telling you.") ∧
     (issue.solution ≠ "" →
       (pySplit issue.solution).filter (fun w => 4 < w.length) = [] →
       generate_specific_hint issue idx =
         "The solution involves a common Linux troubleshooting command.") ∧
     (∀ kws, issue.solution ≠ "" →
       (pySplit issue.solution).filter (fun w => 4 < w.length) = kws → kws ≠ [] →
       generate_specific_hint issue idx =
         "The solution involves using or checking something related to \x27"
           ++ kws.getD (idx % kws.length) "" ++ "\x27.")) := by
  refine ⟨?_, ?_, ?_, ?_, ?_, ?_⟩
  · intro h
    unfold get_hint
    dsimp only
    rw [h]
    rfl
  · intro c hne hcur hlt
    have hem : issue.hints.isEmpty = false := ne_nil_isEmpty_false hne
    unfold get_hint
    dsimp only
    simp only [hem, Bool.false_eq_true, if_false]
    rw [hcur]
    rw [if_pos hlt]
    refine congrArg₂ Prod.mk rfl ?_
    funext k
    by_cases hk : k = issue.id <;> simp [hk]
  · intro hne hge
    have hem : issue.hints.isEmpty = false := ne_nil_isEmpty_false hne
    have hnlt : ¬ ((st issue.id).getD 0 < issue.hints.length) := not_lt.mpr hge
    unfold get_hint
    dsimp only
    simp only [hem, Bool.false_eq_true, if_false]
    rw [if_neg hnlt]
    constructor
    · intro hr
      rw [if_pos hr]
      refine congrArg₂ Prod.mk rfl ?_
      funext k
      by_cases hk : k = issue.id <;> simp [hk]
    · intro hr
      rw [if_neg hr]
      refine congrArg₂ Prod.mk rfl ?_
      funext k
      by_cases hk : k = issue.id
      · obtain ⟨c0, hc0⟩ : ∃ c0, st issue.id = some c0 := by
          cases hsome : st issue.id with
          | some c0 => exact ⟨c0, rfl⟩
          | none =>
            rw [hsome] at hge
            simp only [Option.getD_none, Nat.le_zero] at hge
            exact absurd (List.length_eq_zero.mp hge) hne
        simp [hk, hc0]
      · simp [hk]
  · intro h
    simp [generate_specific_hint, h]
  · intro hne hkw
    have hem : issue.solution.data.isEmpty = false :=
      ne_nil_isEmpty_false (ne_empty_data_ne_nil hne)
    unfold generate_specific_hint
    dsimp only
    simp only [hem, Bool.false_eq_true, if_false]
    rw [hkw]
    rfl
  · intro kws hne hkw hkne
    have hem : issue.solution.data.isEmpty = false :=
      ne_nil_isEmpty_false (ne_empty_data_ne_nil hne)
    have hkem : kws.isEmpty = false := ne_nil_isEmpty_false hkne
    unfold generate_specific_hint
    dsimp only
    simp only [hem, Bool.false_eq_true, if_false]
    rw [hkw]
    simp only [hkem, Bool.false_eq_true, if_false]
    rfl

/-- C3 witness: the first call on a fresh cursor table serves the first
authored hint and advances the cursor. -/
theorem C3_get_hint_branch_table_witness :
    sampleIssue.hints ≠ [] ∧ (emptyCursor sampleIssue.id).getD 0 = 0 ∧
    0 < sampleIssue.hints.length ∧
    get_hint emptyCursor sampleIssue (1/2) 0 =
      ("Hint " ++ toString (0 + 1) ++ ": " ++ sampleIssue.hints.getD 0 "",
       fun k => if k = sampleIssue.id then some (0 + 1) else emptyCursor k) :=
  ⟨by decide, rfl, by decide,
   (C3_get_hint_branch_table emptyCursor sampleIssue (1/2) 0).2.1 0 (by decide) rfl (by decide)⟩

/-- C7: across one `get_hint` call the stored cursor value of any key
never decreases, except that the single reset branch (hints exhausted
and the draw below 0.7) sets the cursor of the issue id back to 0; no
other key is ever changed. -/
theorem C7_cursor_monotone (st : String → Option Nat) (issue : Issue) (r : ℚ)
    (idx : Nat) (k : String) :
    (st k).getD 0 ≤ (((get_hint st issue r idx).2) k).getD 0 ∨
    (k = issue.id ∧ issue.hints ≠ [] ∧ issue.hints.length ≤ (st issue.id).getD 0 ∧
      r < 7/10 ∧ ((get_hint st issue r idx).2) k = some 0) := by
  unfold get_hint
  dsimp only
  by_cases he : issue.hints.isEmpty = true
  · rw [if_pos he]
    exact Or.inl le_rfl
  · rw [if_neg he]
    by_cases hlt : (st issue.id).getD 0 < issue.hints.length
    · rw [if_pos hlt]
      by_cases hk : k = issue.id
      · left
        subst hk
        simp
      · left
        simp [hk]
    · rw [if_neg hlt]
      by_cases hr : r < 7/10
      · rw [if_pos hr]
        by_cases hk : k = issue.id
        · right
          refine ⟨hk, fun hnil => he (by rw [hnil]; rfl), not_lt.mp hlt, hr, ?_⟩
          simp [hk]
        · left
          simp [hk]
      · rw [if_neg hr]
        by_cases hk : k = issue.id
        · left
          simp [hk]
        · left
          simp [hk]
/-! ## C4: provisioning failure behaviour -/

/-- C4 evaluation: when the `docker build` or `docker run` step of
`create_container` fails with a `CalledProcessError`, the `except`
clause calls `sys.exit(1)`: the outcome is termination of the host
process, not a typed recoverable error returned to the caller. -/
theorem C4_provision_failure_exits (issue : Issue) (tmp : String)
    (runner : List String → SubprocResult) :
    (∀ m, runner ["docker", "build", "-t", image_tag issue, tmp] = .fail m →
      create_container issue tmp runner = .processExit 1) ∧
    (∀ s m, runner ["docker", "build", "-t", image_tag issue, tmp] = .ok s →
      runner ["docker", "run", "-d", "--name", container_name issue, "-t", image_tag issue] =
        .fail m →
      create_container issue tmp runner = .processExit 1) := by
  constructor
  · intro m hm
    unfold create_container
    rw [hm]
  · intro s m hs hm
    unfold create_container
    rw [hs]
    dsimp only
    rw [hm]

/-- C4 witness: a failing build concretely terminates the process with
exit status 1. -/
theorem C4_provision_failure_exits_witness :
    failingRunner ["docker", "build", "-t", image_tag sampleIssue, "/tmp/stage"] =
      .fail "Command returned non-zero exit status 1." ∧
    create_container sampleIssue "/tmp/stage" failingRunner = .processExit 1 :=
  ⟨rfl,
   (C4_provision_failure_exits sampleIssue "/tmp/stage" failingRunner).1
     "Command returned non-zero exit status 1." rfl⟩

/-! ## C5: command execution always returns text -/

/-- C5: `execute_command` splits the command line on whitespace, runs
the tokens in the target environment, and returns text for both exit
statuses: a `CalledProcessError` is folded into the returned text as an
`Error:` string instead of being raised. -/
theorem C5_execute_command_total (runner : List String → SubprocResult)
    (container_id command : String) :
    (∀ out, runner (["docker", "exec", container_id] ++ pySplit command) = .ok out →
      execute_command runner container_id command = out) ∧
    (∀ e, runner (["docker", "exec", container_id] ++ pySplit command) = .fail e →
      execute_command runner container_id command = "Error: " ++ e) ∧
    pySplit "ls  -la   /var/log" = ["ls", "-la", "/var/log"] := by
  refine ⟨?_, ?_, by decide⟩
  · intro out hout
    unfold execute_command
    rw [hout]
  · intro e he
    unfold execute_command
    rw [he]

/-- C5 witness: a command exiting non-zero yields an `Error:` text
value rather than an exception. -/
theorem C5_execute_command_total_witness :
    sampleExecRunner (["docker", "exec", "cid123"] ++ pySplit "cat /missing") =
      .fail "Command returned non-zero exit status 1." ∧
    execute_command sampleExecRunner "cid123" "cat /missing" =
      "Error: " ++ "Command returned non-zero exit status 1." :=
  ⟨by decide,
   (C5_execute_command_total sampleExecRunner "cid123" "cat /missing").2.1
     "Command returned non-zero exit status 1." (by decide)⟩

/-! ## C6: the execute-command endpoint is not keyed by session -/

/-- A request for an unknown session: the store is empty, yet the
handler succeeds with an output payload, because it reads the raw
`containerId` from the request and never consults the session store. -/
theorem C6_session_unknown_counterexample :
    emptySessions.lookup "deadbeef" = none ∧
    api_execute_command emptySessions okRunner (some "deadbeef") (some "ls -la") =
      { success := true, status := 200, output := some "total 0
" } := by
  exact ⟨rfl, by decide⟩

/-- C6 (amended): the execute-command endpoint is keyed by the raw
`containerId` and `command` request fields, not by session: its result
is independent of the session store; it fails with the structured 400
failure exactly when either input is missing or empty, and otherwise
succeeds with an `output` payload even if no session references the
container. -/
theorem C6_execute_endpoint_contract (sessions sessionsB : List (String × SessionRec))
    (runner : List String → SubprocResult) (containerId command : Option String) :
    (api_execute_command sessions runner containerId command =
      api_execute_command sessionsB runner containerId command) ∧
    ((pyFalsy containerId || pyFalsy command) = true →
      api_execute_command sessions runner containerId command =
        { success := false, status := 400,
          error := some "Container ID and command are required" }) ∧
    ((pyFalsy containerId || pyFalsy command) = false →
      api_execute_command sessions runner containerId command =
        { success := true, status := 200,
          output := some (execute_command runner (containerId.getD "") (command.getD "")) }) := by
  refine ⟨rfl, ?_, ?_⟩
  · intro h
    unfold api_execute_command
    rw [if_pos h]
  · intro h
    unfold api_execute_command
    rw [h]
    rfl

/-- C6 witness: a request missing the container id is answered with the
structured 400 failure. -/
theorem C6_execute_endpoint_contract_witness :
    (pyFalsy (none : Option String) || pyFalsy (some "ls")) = true ∧
    api_execute_command emptySessions okRunner none (some "ls") =
      { success := false, status := 400,
        error := some "Container ID and command are required" } :=
  ⟨rfl,
   (C6_execute_endpoint_contract emptySessions emptySessions okRunner none (some "ls")).2.1
     rfl⟩

/-! ## C8: best-effort teardown -/

/-- C8: `remove_container` runs `docker stop` then `docker rm`, both
with `check=False`, so it is a total operation on the daemon state (no
error path); afterwards the target container no longer exists, every
other container is untouched, and repeating the removal changes
nothing. -/
theorem C8_remove_idempotent_isolated (st : DockerState) (cid : String) :
    (remove_container st cid).present cid = false ∧
    (∀ k, k ≠ cid →
      (remove_container st cid).present k = st.present k ∧
      (remove_container st cid).running k = st.running k) ∧
    remove_container (remove_container st cid) cid = remove_container st cid := by
  have hpres : (remove_container st cid).present cid = false := by
    unfold remove_container dockerStop dockerRm
    by_cases hp : st.present cid = true
    · simp [hp]
    · have hp' : st.present cid = false := by simpa using hp
      simp [hp']
  have hrm_noop : ∀ s : DockerState, s.present cid = false → remove_container s cid = s := by
    intro s hs
    unfold remove_container dockerStop dockerRm
    rw [if_neg (show ¬(s.present cid = true) from by rw [hs]; exact Bool.false_ne_true)]
    rw [if_neg (show ¬((s.present cid && !s.running cid) = true) from by rw [hs]; simp)]
  refine ⟨hpres, ?_, hrm_noop (remove_container st cid) hpres⟩
  intro k hk
  unfold remove_container dockerStop dockerRm
  by_cases hp : st.present cid = true
  · simp [hp, hk]
  · have hp' : st.present cid = false := by simpa using hp
    simp [hp', hk]

/-- C8 witness: removing a container leaves the other container of the
sample daemon state untouched, and its own entry gone. -/
theorem C8_remove_idempotent_isolated_witness :
    ("c2" : String) ≠ "c1" ∧
    (remove_container sampleDocker "c1").present "c2" = sampleDocker.present "c2" ∧
    (remove_container sampleDocker "c1").running "c2" = sampleDocker.running "c2" ∧
    (remove_container sampleDocker "c1").present "c1" = false :=
  ⟨by decide,
   ((C8_remove_idempotent_isolated sampleDocker "c1").2.1 "c2" (by decide)).1,
   ((C8_remove_idempotent_isolated sampleDocker "c1").2.1 "c2" (by decide)).2,
   (C8_remove_idempotent_isolated sampleDocker "c1").1⟩

/-! ## C9: the unguarded exit-code parse -/

/-- C9: when the captured verification output is non-empty and its last
line is not a decimal integer literal, the unguarded `int(lines[-1])`
raises and `verify_solution` produces no `(resolved, feedback)` pair. -/
theorem C9_unguarded_exit_code_parse (issue : Issue) (stdout : String) :
    ∀ last, (pySplitlines (pyStrip stdout)).getLast? = some last →
      pyInt last = none →
      verify_solution issue stdout = .valueError := by
  intro last hlast hparse
  unfold verify_solution
  dsimp only
  rw [hlast]
  dsimp only
  rw [hparse]

/-- C9 witness: a two-line output whose last line is prose makes the
verifier raise instead of returning a result. -/
theorem C9_unguarded_exit_code_parse_witness :
    (pySplitlines (pyStrip "Verification incomplete
missing marker")).getLast? =
      some "missing marker" ∧
    pyInt "missing marker" = none ∧
    verify_solution sampleIssue "Verification incomplete
missing marker" = .valueError :=
  ⟨by decide, by decide,
   C9_unguarded_exit_code_parse sampleIssue "Verification incomplete
missing marker"
     "missing marker" (by decide) (by decide)⟩

/-! ## C10: the verify endpoint conflates transport and verdict -/

/-- C10: for a known session the top-level `success` flag of the
verify-solution response equals the `resolved` verdict, and the verdict
is carried in no other field (`error`, `output` and `hint` stay empty);
consequently a verification that ran and reported unresolved yields
`success = false`, the same flag value produced when the verifier
raises (a transport or parse failure). -/
theorem C10_success_flag_conflation (sessions : List (String × SessionRec)) (sid : String)
    (sess : SessionRec) (verifier : String → Issue → Except String (Bool × String)) :
    sid ≠ "" → sessions.lookup sid = some sess →
    ((∀ resolved fb, verifier sess.container_id sess.issue = .ok (resolved, fb) →
       api_verify_solution sessions (some sid) verifier =
         { success := resolved, status := 200, message := some fb }) ∧
     (∀ e, verifier sess.container_id sess.issue = .error e →
       (api_verify_solution sessions (some sid) verifier).success = false)) := by
  intro hsid hlook
  unfold api_verify_solution
  dsimp only
  rw [if_neg hsid, hlook]
  dsimp only
  constructor
  · intro resolved fb h
    rw [h]
  · intro e h
    rw [h]

/-- C10 witness: an unresolved verdict for a known session comes back
as `success = false`, and so does a raising verifier. -/
theorem C10_success_flag_conflation_witness :
    ("sess-1" : String) ≠ "" ∧
    sampleSessions.lookup "sess-1" = some ⟨sampleIssue, "cid123"⟩ ∧
    api_verify_solution sampleSessions (some "sess-1") unresolvedVerifier =
      { success := false, status := 200, message := some "not yet" } ∧
    (api_verify_solution sampleSessions (some "sess-1") raisingVerifier).success = false :=
  ⟨by decide, by decide,
   (C10_success_flag_conflation sampleSessions "sess-1" ⟨sampleIssue, "cid123"⟩
      unresolvedVerifier (by decide) (by decide)).1 false "not yet" rfl,
   (C10_success_flag_conflation sampleSessions "sess-1" ⟨sampleIssue, "cid123"⟩
      raisingVerifier (by decide) (by decide)).2
     "invalid literal for int() with base 10" rfl⟩
end Sim
